import Mathlib

/-!
Verification of `MsCorePkg/Library/MemoryProtectionExceptionCmosLib/
MemoryProtectionExceptionHandlerLib.c`.

The library is embedded shallowly as trace-producing functions: every call the
C code makes to an external collaborator (debug sink, CMOS accessor, boot
services, runtime services, CPU architecture protocol) is recorded as one
`Action` in a list, in program order.  The outcomes of the external
collaborators (toggle value, status codes returned by CreateEvent,
LocateProtocol and RegisterInterruptHandler) are inputs of the embedding, so
theorems quantify over every behaviour of the environment.
-/

namespace MemProtCmos

/-- UEFI status code, a 64-bit unsigned value; `EFI_SUCCESS` is zero. -/
def EFI_SUCCESS : Nat := 0

/-- The EFI_ERROR macro: a status is an error exactly when its most
significant (63rd) bit is set, i.e. when it is at least `2 ^ 63`. -/
def EFI_ERROR (s : Nat) : Bool := decide (2 ^ 63 ≤ s)

/-- Status code EFI_NOT_FOUND (error bit plus 14). -/
def EFI_NOT_FOUND : Nat := 2 ^ 63 + 14

/-- Status code EFI_OUT_OF_RESOURCES (error bit plus 9). -/
def EFI_OUT_OF_RESOURCES : Nat := 2 ^ 63 + 9

/-- IA-32/x64 page fault exception vector, the class the handler is
registered for. -/
def EXCEPT_IA32_PAGE_FAULT : Nat := 14

/-- Debug print level used for the fault record. -/
def DEBUG_ERROR : Nat := 0x80000000

/-- Debug print level used for informational messages. -/
def DEBUG_INFO : Nat := 0x00000040

/-- Event type passed to CreateEvent. -/
def EVT_NOTIFY_SIGNAL : Nat := 0x00000200

/-- Task priority level passed to CreateEvent. -/
def TPL_CALLBACK : Nat := 8

/-- Modelled from the spec: the bit of the Durable Protection Flag byte that
means "memory protections disabled for next boot" (spec section 3).  The
header `MemoryProtectionExceptionCommon.h`, which defines the concrete bit
layout, is not under `src/`. -/
def CMOS_MEM_PROT_DISABLED_BIT_MASK : Nat := 1

/-- Modelled from the spec: the validity-marker bit of the Durable Protection
Flag byte (spec section 3).  The defining header is not under `src/`. -/
def CMOS_MEM_PROT_VALIDITY_BIT_MASK : Nat := 2

/-- Modelled from the spec: the "disabled, valid" bit pattern the Fault
Handler writes (spec section 4.2, step 3).  Named after the constant the
source assigns to `val` and passes to `CmosWriteMemoryProtectionByte`; its
defining header `MemoryProtectionExceptionCommon.h` is not under `src/`, so
its value is taken from the spec, which states the written byte carries both
the disabled flag and the validity marker. -/
def CMOS_MEM_PROT_VALID_BIT_MASK : Nat :=
  CMOS_MEM_PROT_DISABLED_BIT_MASK ||| CMOS_MEM_PROT_VALIDITY_BIT_MASK

/-- The x64 processor context the handler receives; the handler reads only
`ExceptionData`, the remaining register state is abstracted into one field
consumed whole by `DumpCpuContext`. -/
structure EFI_SYSTEM_CONTEXT_X64 where
  exceptionData : Nat
  otherRegisters : Nat
deriving DecidableEq

/-- The union EFI_SYSTEM_CONTEXT, accessed through its x64 member. -/
structure EFI_SYSTEM_CONTEXT where
  systemContextX64 : EFI_SYSTEM_CONTEXT_X64
deriving DecidableEq

/-- The EFI_RESET_TYPE enumeration of ResetSystem. -/
inductive EfiResetType where
  | cold
  | warm
  | shutdown
  | platformSpecific
deriving DecidableEq

/-- Identity of each DEBUG print in the source, with the data it formats. -/
inductive DebugMsg where
  | handlerEntry (exceptionData : Nat) (interruptType : Int)
  | resetting
  | locateCpuArchFailed
  | registerHandlerFailed
  | createEventFailed
deriving DecidableEq

/-- One externally visible call made by the library, in program order. -/
inductive Action where
  | debug (level : Nat) (msg : DebugMsg)
  | dumpCpuContext (interruptType : Int) (context : EFI_SYSTEM_CONTEXT)
  | cmosWrite (val : Nat)
  | resetSystem (ty : EfiResetType) (status : Nat) (dataSize : Nat)
      (resetDataNull : Bool)
  | locateProtocol (status : Nat)
  | registerInterruptHandler (interruptType : Nat) (status : Nat)
  | createEvent (ty : Nat) (notifyTpl : Nat) (status : Nat)
  | registerProtocolNotify (eventInitialized : Bool) (status : Nat)
deriving DecidableEq

/-- Whether a C function invocation returns to its caller or diverges. -/
inductive Outcome where
  | diverged
  | returned
deriving DecidableEq

/-- Recognises the CMOS flag write among the actions. -/
def isCmosWrite : Action → Bool
  | Action.cmosWrite _ => true
  | _ => false

/-- Recognises the ResetSystem call among the actions. -/
def isReset : Action → Bool
  | Action.resetSystem _ _ _ _ => true
  | _ => false

/-- Recognises a RegisterInterruptHandler call among the actions. -/
def isRegisterAttempt : Action → Bool
  | Action.registerInterruptHandler _ _ => true
  | _ => false

/-- Actions that change machine state, as opposed to purely diagnostic
output (debug prints and the context dump). -/
def isStateChanging : Action → Bool
  | Action.cmosWrite _ => true
  | Action.resetSystem _ _ _ _ => true
  | _ => false

/-- The bytes a trace writes to the Durable Protection Flag, in order. -/
def writtenBytes (t : List Action) : List Nat :=
  t.filterMap fun a =>
    match a with
    | Action.cmosWrite b => some b
    | _ => none

/-- Embedding of `MemoryProtectionExceptionHandlerCmos` (lines 29-47): debug
record of exception data and interrupt type, full context dump, CMOS write of
`val = CMOS_MEM_PROT_VALID_BIT_MASK`, "Resetting..." notice, then
`gRT->ResetSystem(EfiResetWarm, EFI_SUCCESS, 0, NULL)`.  ResetSystem is an
external primitive the spec declares never returns, so the call is modelled
as divergent and the invocation's outcome is `Outcome.diverged`. -/
def MemoryProtectionExceptionHandlerCmos (interruptType : Int)
    (systemContext : EFI_SYSTEM_CONTEXT) : List Action × Outcome :=
  ([Action.debug DEBUG_ERROR
      (DebugMsg.handlerEntry systemContext.systemContextX64.exceptionData
        interruptType),
    Action.dumpCpuContext interruptType systemContext,
    Action.cmosWrite CMOS_MEM_PROT_VALID_BIT_MASK,
    Action.debug DEBUG_INFO DebugMsg.resetting,
    Action.resetSystem EfiResetType.warm EFI_SUCCESS 0 true],
   Outcome.diverged)

/-- Outcomes the environment chooses for one run of the deferred registrar:
the status LocateProtocol returns and the status RegisterInterruptHandler
would return if called. -/
structure CpuArchEnv where
  locateStatus : Nat
  registerStatus : Nat
deriving DecidableEq

/-- Observable state: whether the global `mCpu` holds a located protocol
pointer, whether the dispatch subsystem currently has the fault handler
installed, and how many times a registration has been accepted. -/
structure SysState where
  mCpuLocated : Bool
  handlerInstalled : Bool
  installCount : Nat
deriving DecidableEq

/-- State at constructor entry: `mCpu = NULL`, nothing installed. -/
def initState : SysState := SysState.mk false false 0

/-- Embedding of `CpuArchRegisterMemoryProtectionExceptionHandlerCmos`
(lines 56-81), the notify callback: locate the CPU architecture protocol; on
failure print a diagnostic and return; otherwise call
RegisterInterruptHandler for the page fault vector, printing a diagnostic if
that fails.  A registration the dispatch subsystem accepts marks the handler
installed and increments the install count. -/
def CpuArchRegisterMemoryProtectionExceptionHandlerCmos (env : CpuArchEnv)
    (st : SysState) : List Action × SysState :=
  if EFI_ERROR env.locateStatus then
    ([Action.locateProtocol env.locateStatus,
      Action.debug DEBUG_INFO DebugMsg.locateCpuArchFailed],
     SysState.mk false st.handlerInstalled st.installCount)
  else if EFI_ERROR env.registerStatus then
    ([Action.locateProtocol env.locateStatus,
      Action.registerInterruptHandler EXCEPT_IA32_PAGE_FAULT
        env.registerStatus,
      Action.debug DEBUG_INFO DebugMsg.registerHandlerFailed],
     SysState.mk true st.handlerInstalled st.installCount)
  else
    ([Action.locateProtocol env.locateStatus,
      Action.registerInterruptHandler EXCEPT_IA32_PAGE_FAULT
        env.registerStatus],
     SysState.mk true true (st.installCount + 1))

/-- Outcomes the environment chooses for one run of the constructor. -/
structure ConstructorEnv where
  toggleEnabled : Bool
  createEventStatus : Nat
  registerProtocolNotifyStatus : Nat
deriving DecidableEq

/-- What one constructor run yields: its action trace, the status it returns
to the firmware loader, and whether the availability notification ended up
armed (event created successfully and notify registration accepted). -/
structure ConstructorResult where
  trace : List Action
  status : Nat
  notifyArmed : Bool
deriving DecidableEq

/-- Embedding of `MemoryProtectionExceptionHandlerCmosConstructor`
(lines 92-127): if the global toggle is off, return EFI_SUCCESS with no
calls; otherwise CreateEvent (printing a diagnostic on failure but not
returning), then unconditionally RegisterProtocolNotify — with the local
event variable still uninitialized when CreateEvent failed, recorded as
`eventInitialized = false` — ignore its status, and return EFI_SUCCESS. -/
def MemoryProtectionExceptionHandlerCmosConstructor (env : ConstructorEnv) :
    ConstructorResult :=
  if !env.toggleEnabled then
    ConstructorResult.mk [] EFI_SUCCESS false
  else
    let eventInitialized := !EFI_ERROR env.createEventStatus
    let createTrace :=
      if EFI_ERROR env.createEventStatus then
        [Action.createEvent EVT_NOTIFY_SIGNAL TPL_CALLBACK
           env.createEventStatus,
         Action.debug DEBUG_INFO DebugMsg.createEventFailed]
      else
        [Action.createEvent EVT_NOTIFY_SIGNAL TPL_CALLBACK
           env.createEventStatus]
    ConstructorResult.mk
      (createTrace ++
       [Action.registerProtocolNotify eventInitialized
          env.registerProtocolNotifyStatus])
      EFI_SUCCESS
      (eventInitialized && !EFI_ERROR env.registerProtocolNotifyStatus)

/-- One whole-boot behaviour of the environment: the toggle value, the boot
service statuses, whether the CPU architecture protocol is ever produced (so
the armed notification fires), the registrar statuses at that firing, and
whether a page fault later occurs and with which processor context. -/
structure Config where
  toggleEnabled : Bool
  createEventStatus : Nat
  registerProtocolNotifyStatus : Nat
  cpuArchArrives : Bool
  locateStatus : Nat
  registerStatus : Nat
  faultOccurs : Bool
  faultType : Int
  faultContext : EFI_SYSTEM_CONTEXT
deriving DecidableEq

/-- Observables of one whole boot session driven by a `Config`. -/
structure BootResult where
  trace : List Action
  constructorStatus : Nat
  notifyArmed : Bool
  handlerInstalled : Bool
  handlerRan : Bool
  installCount : Nat
deriving DecidableEq

/-- One boot session: run the constructor; if the notification is armed and
the CPU architecture protocol arrives, the notification fires the registrar;
if that installed the handler and a page fault occurs, the dispatch
subsystem invokes the fault handler.  A fault with no handler installed is
handled by the default handler outside this library, contributing no
actions here. -/
def bootExec (cfg : Config) : BootResult :=
  let cr := MemoryProtectionExceptionHandlerCmosConstructor
    (ConstructorEnv.mk cfg.toggleEnabled cfg.createEventStatus
      cfg.registerProtocolNotifyStatus)
  if cr.notifyArmed && cfg.cpuArchArrives then
    let rr := CpuArchRegisterMemoryProtectionExceptionHandlerCmos
      (CpuArchEnv.mk cfg.locateStatus cfg.registerStatus) initState
    if rr.2.handlerInstalled && cfg.faultOccurs then
      let hr := MemoryProtectionExceptionHandlerCmos cfg.faultType
        cfg.faultContext
      BootResult.mk (cr.trace ++ rr.1 ++ hr.1) cr.status cr.notifyArmed
        rr.2.handlerInstalled true rr.2.installCount
    else
      BootResult.mk (cr.trace ++ rr.1) cr.status cr.notifyArmed
        rr.2.handlerInstalled false rr.2.installCount
  else
    BootResult.mk cr.trace cr.status cr.notifyArmed false false 0

/-- C1: on every handler invocation the externally visible actions are, in
this strict order: the diagnostic record of the exception kind and fault
metadata, the full processor-context dump, the Durable Protection Flag write,
the restart-imminent diagnostic, and finally ResetSystem with (Warm, Success,
no data); every action strictly before the reset call, and in particular the
flag write precedes it. -/
theorem c1_handler_action_order (it : Int) (ctx : EFI_SYSTEM_CONTEXT) :
    (MemoryProtectionExceptionHandlerCmos it ctx).1 =
      [Action.debug DEBUG_ERROR
         (DebugMsg.handlerEntry ctx.systemContextX64.exceptionData it),
       Action.dumpCpuContext it ctx,
       Action.cmosWrite CMOS_MEM_PROT_VALID_BIT_MASK,
       Action.debug DEBUG_INFO DebugMsg.resetting,
       Action.resetSystem EfiResetType.warm EFI_SUCCESS 0 true] ∧
    (((MemoryProtectionExceptionHandlerCmos it ctx).1.takeWhile
        (fun a => !isReset a)).any isCmosWrite) = true :=
  ⟨rfl, rfl⟩

/-- C2: on every invocation the handler writes exactly one byte to the
Durable Protection Flag, and that byte has both the protections-disabled bit
and the validity-marker bit set. -/
theorem c2_flag_byte_valid_disabled (it : Int) (ctx : EFI_SYSTEM_CONTEXT) :
    writtenBytes (MemoryProtectionExceptionHandlerCmos it ctx).1 =
      [CMOS_MEM_PROT_VALID_BIT_MASK] ∧
    CMOS_MEM_PROT_VALID_BIT_MASK &&& CMOS_MEM_PROT_DISABLED_BIT_MASK =
      CMOS_MEM_PROT_DISABLED_BIT_MASK ∧
    CMOS_MEM_PROT_VALID_BIT_MASK &&& CMOS_MEM_PROT_VALIDITY_BIT_MASK =
      CMOS_MEM_PROT_VALIDITY_BIT_MASK :=
  ⟨rfl, by decide, by decide⟩

/-- C3: for every outcome of the external collaborators (toggle value,
CreateEvent status, RegisterProtocolNotify status) the constructor returns
EFI_SUCCESS; no internal failure is propagated to the caller. -/
theorem c3_constructor_always_success (env : ConstructorEnv) :
    (MemoryProtectionExceptionHandlerCmosConstructor env).status =
      EFI_SUCCESS := by
  unfold MemoryProtectionExceptionHandlerCmosConstructor
  by_cases h : env.toggleEnabled <;>
    by_cases h2 : EFI_ERROR env.createEventStatus <;>
      simp [h, h2]

/-- C4: if the global toggle reads false at initialization, the whole boot
session shows no action at all from this library: the trace is empty (so no
diagnostics and no registration attempt), no notification is armed, the
handler is never installed and never runs, and the constructor still
returns EFI_SUCCESS. -/
theorem c4_toggle_off_inert (ces rpns ls rs : Nat) (ca fo : Bool) (ft : Int)
    (fc : EFI_SYSTEM_CONTEXT) :
    bootExec (Config.mk false ces rpns ca ls rs fo ft fc) =
      BootResult.mk [] EFI_SUCCESS false false false 0 :=
  rfl

/-- C5: when LocateProtocol fails in the deferred registrar, the whole run
emits only the locate call and one diagnostic, makes no
RegisterInterruptHandler call, leaves the installation state unchanged, and
returns normally. -/
theorem c5_locate_failure_absorbed (ls rs : Nat) (st : SysState)
    (h : EFI_ERROR ls = true) :
    (CpuArchRegisterMemoryProtectionExceptionHandlerCmos
        (CpuArchEnv.mk ls rs) st).1 =
      [Action.locateProtocol ls,
       Action.debug DEBUG_INFO DebugMsg.locateCpuArchFailed] ∧
    ((CpuArchRegisterMemoryProtectionExceptionHandlerCmos
        (CpuArchEnv.mk ls rs) st).1.any isRegisterAttempt) = false ∧
    (CpuArchRegisterMemoryProtectionExceptionHandlerCmos
        (CpuArchEnv.mk ls rs) st).2.handlerInstalled = st.handlerInstalled ∧
    (CpuArchRegisterMemoryProtectionExceptionHandlerCmos
        (CpuArchEnv.mk ls rs) st).2.installCount = st.installCount := by
  simp [CpuArchRegisterMemoryProtectionExceptionHandlerCmos, h,
    isRegisterAttempt]

/-- Witness for C5 at the concrete status EFI_NOT_FOUND from the initial
state. -/
theorem c5_locate_failure_absorbed_witness :
    EFI_ERROR EFI_NOT_FOUND = true ∧
    ((CpuArchRegisterMemoryProtectionExceptionHandlerCmos
        (CpuArchEnv.mk EFI_NOT_FOUND EFI_SUCCESS) initState).1 =
      [Action.locateProtocol EFI_NOT_FOUND,
       Action.debug DEBUG_INFO DebugMsg.locateCpuArchFailed] ∧
    ((CpuArchRegisterMemoryProtectionExceptionHandlerCmos
        (CpuArchEnv.mk EFI_NOT_FOUND EFI_SUCCESS) initState).1.any
        isRegisterAttempt) = false ∧
    (CpuArchRegisterMemoryProtectionExceptionHandlerCmos
        (CpuArchEnv.mk EFI_NOT_FOUND EFI_SUCCESS)
        initState).2.handlerInstalled = initState.handlerInstalled ∧
    (CpuArchRegisterMemoryProtectionExceptionHandlerCmos
        (CpuArchEnv.mk EFI_NOT_FOUND EFI_SUCCESS)
        initState).2.installCount = initState.installCount) :=
  ⟨by decide,
   c5_locate_failure_absorbed EFI_NOT_FOUND EFI_SUCCESS initState
     (by decide)⟩

/-- C6: in every boot session in which the CPU architecture protocol never
arrives, the trace contains no CMOS flag write and no ResetSystem call, and
the handler is never installed and never runs — whatever the toggle, the
statuses, and whether a fault occurs. -/
theorem c6_subsystem_never_available (t : Bool) (ces rpns ls rs : Nat)
    (fo : Bool) (ft : Int) (fc : EFI_SYSTEM_CONTEXT) :
    ((bootExec (Config.mk t ces rpns false ls rs fo ft fc)).trace.any
        isCmosWrite) = false ∧
    ((bootExec (Config.mk t ces rpns false ls rs fo ft fc)).trace.any
        isReset) = false ∧
    (bootExec (Config.mk t ces rpns false ls rs fo ft fc)).handlerInstalled =
      false ∧
    (bootExec (Config.mk t ces rpns false ls rs fo ft fc)).handlerRan =
      false := by
  cases t <;>
    by_cases h : EFI_ERROR ces <;>
      simp [bootExec, MemoryProtectionExceptionHandlerCmosConstructor, h,
        isCmosWrite, isReset]

/-- C7 counterexample: with an environment in which LocateProtocol and
RegisterInterruptHandler both succeed at each firing, a second firing of the
notification makes the core issue a second RegisterInterruptHandler call,
and the dispatch subsystem having accepted both, the handler is installed
twice — the core neither rejects nor no-ops the second attempt. -/
theorem c7_second_firing_counterexample :
    (((CpuArchRegisterMemoryProtectionExceptionHandlerCmos
          (CpuArchEnv.mk EFI_SUCCESS EFI_SUCCESS) initState).1 ++
      (CpuArchRegisterMemoryProtectionExceptionHandlerCmos
          (CpuArchEnv.mk EFI_SUCCESS EFI_SUCCESS)
          (CpuArchRegisterMemoryProtectionExceptionHandlerCmos
            (CpuArchEnv.mk EFI_SUCCESS EFI_SUCCESS) initState).2).1).countP
        isRegisterAttempt) = 2 ∧
    (CpuArchRegisterMemoryProtectionExceptionHandlerCmos
        (CpuArchEnv.mk EFI_SUCCESS EFI_SUCCESS)
        (CpuArchRegisterMemoryProtectionExceptionHandlerCmos
          (CpuArchEnv.mk EFI_SUCCESS EFI_SUCCESS)
          initState).2).2.installCount = 2 := by
  decide

/-- C7 amended: whenever LocateProtocol succeeds, one run of the deferred
registrar issues exactly one RegisterInterruptHandler call, regardless of
the prior installation state — the core keeps no guard against
re-registration, so a second firing re-attempts registration and
idempotence is delegated entirely to the dispatch subsystem's response. -/
theorem c7_amended_no_reregistration_guard (ls rs : Nat) (st : SysState)
    (h : EFI_ERROR ls = false) :
    ((CpuArchRegisterMemoryProtectionExceptionHandlerCmos
        (CpuArchEnv.mk ls rs) st).1.countP isRegisterAttempt) = 1 := by
  by_cases h2 : EFI_ERROR rs <;>
    simp [CpuArchRegisterMemoryProtectionExceptionHandlerCmos, h, h2,
      isRegisterAttempt, List.countP_cons]

/-- Witness for the amended C7, applied in a state where the handler is
already installed once: the registrar still issues a registration call. -/
theorem c7_amended_witness :
    EFI_ERROR EFI_SUCCESS = false ∧
    ((CpuArchRegisterMemoryProtectionExceptionHandlerCmos
        (CpuArchEnv.mk EFI_SUCCESS EFI_SUCCESS)
        (SysState.mk true true 1)).1.countP isRegisterAttempt) = 1 :=
  ⟨by decide,
   c7_amended_no_reregistration_guard EFI_SUCCESS EFI_SUCCESS
     (SysState.mk true true 1) (by decide)⟩

/-- C8: no handler invocation completes normally — every run diverges, and
its final action is the ResetSystem call with (Warm, Success, no data). -/
theorem c8_handler_never_returns (it : Int) (ctx : EFI_SYSTEM_CONTEXT) :
    (MemoryProtectionExceptionHandlerCmos it ctx).2 = Outcome.diverged ∧
    (MemoryProtectionExceptionHandlerCmos it ctx).1.getLast? =
      some (Action.resetSystem EfiResetType.warm EFI_SUCCESS 0 true) :=
  ⟨rfl, rfl⟩

/-- C9: with the toggle enabled, when CreateEvent fails the constructor
still calls RegisterProtocolNotify — with the local event variable still
uninitialized — and still returns EFI_SUCCESS. -/
theorem c9_create_event_failure_proceeds (ces rpns : Nat)
    (h : EFI_ERROR ces = true) :
    (MemoryProtectionExceptionHandlerCmosConstructor
        (ConstructorEnv.mk true ces rpns)).trace =
      [Action.createEvent EVT_NOTIFY_SIGNAL TPL_CALLBACK ces,
       Action.debug DEBUG_INFO DebugMsg.createEventFailed,
       Action.registerProtocolNotify false rpns] ∧
    (MemoryProtectionExceptionHandlerCmosConstructor
        (ConstructorEnv.mk true ces rpns)).status = EFI_SUCCESS := by
  simp [MemoryProtectionExceptionHandlerCmosConstructor, h]

/-- Witness for C9 at the concrete status EFI_OUT_OF_RESOURCES. -/
theorem c9_create_event_failure_proceeds_witness :
    EFI_ERROR EFI_OUT_OF_RESOURCES = true ∧
    ((MemoryProtectionExceptionHandlerCmosConstructor
        (ConstructorEnv.mk true EFI_OUT_OF_RESOURCES EFI_SUCCESS)).trace =
      [Action.createEvent EVT_NOTIFY_SIGNAL TPL_CALLBACK
         EFI_OUT_OF_RESOURCES,
       Action.debug DEBUG_INFO DebugMsg.createEventFailed,
       Action.registerProtocolNotify false EFI_SUCCESS] ∧
    (MemoryProtectionExceptionHandlerCmosConstructor
        (ConstructorEnv.mk true EFI_OUT_OF_RESOURCES
          EFI_SUCCESS)).status = EFI_SUCCESS) :=
  ⟨by decide,
   c9_create_event_failure_proceeds EFI_OUT_OF_RESOURCES EFI_SUCCESS
     (by decide)⟩

/-- C10: the handler's state-changing actions are input-independent — for
any two invocations the subsequences of non-diagnostic actions coincide and
equal the constant pair: the flag write of the fixed byte, then ResetSystem
with the fixed (Warm, Success, no data) parameters. -/
theorem c10_state_effects_input_independent (itA itB : Int)
    (ctxA ctxB : EFI_SYSTEM_CONTEXT) :
    (MemoryProtectionExceptionHandlerCmos itA ctxA).1.filter
        isStateChanging =
      (MemoryProtectionExceptionHandlerCmos itB ctxB).1.filter
        isStateChanging ∧
    (MemoryProtectionExceptionHandlerCmos itA ctxA).1.filter
        isStateChanging =
      [Action.cmosWrite CMOS_MEM_PROT_VALID_BIT_MASK,
       Action.resetSystem EfiResetType.warm EFI_SUCCESS 0 true] :=
  ⟨rfl, rfl⟩

end MemProtCmos
